import Mathlib

set_option maxHeartbeats 1000000

/-! Shallow embedding of the P&L engine of the option P&L web application
(src/option_pnl_webapp.py).  The engine is the body of the update_graph
callback (lines 86-109): it checks that both dates are present, builds the
list of market days, and computes the option-value, dollar P&L and percent
P&L series of the exponential decay model.  Numbers entered in the form are
modelled as rationals, calendar dates as integers counting days, and the
numpy float arithmetic as real arithmetic, except for two explicit error
paths: the division of line 109 is given its IEEE semantics (a FloatVal
that can be a signed infinity or NaN), and the np.linspace call of
line 103, which raises ValueError when days_to_expiry is negative, is
modelled as an Option whose none value is that uncaught raise. -/

/-- Option type radio input (lines 30-33): call or put. -/
inductive OptionKind where
  | call
  | put

/-- The inputs reaching the decay-model computation after the missing-date
guard of line 87: the numbers of the form, the option type, both dates
already parsed (as ordinal day numbers), and the slider value. -/
structure CoreInputs where
  underlying : ℚ
  premium : ℚ
  contractSize : ℚ
  optionKind : OptionKind
  delta : ℚ
  theta : ℚ
  datePurchased : ℤ
  expiryDate : ℤ
  hypoChange : ℚ

/-- days_to_expiry = (end_date - start_date).days (line 92). -/
def daysToExpiry (inp : CoreInputs) : ℤ := inp.expiryDate - inp.datePurchased

/-- The number of evaluation points of range(days_to_expiry) (line 93) and
np.arange(days_to_expiry) (line 104), both of which silently produce
max(days_to_expiry, 0) elements. -/
def numDays (inp : CoreInputs) : ℕ := (daysToExpiry inp).toNat

/-- market_days (line 93): start_date + timedelta(days=i) for i in
range(days_to_expiry). -/
def marketDays (inp : CoreInputs) : List ℤ :=
  (List.range (numDays inp)).map (fun i : ℕ => inp.datePurchased + (i : ℤ))

/-- adjusted_price = underlying * (1 + hypo_change / 100) (line 95). -/
def adjustedPrice (inp : CoreInputs) : ℚ :=
  inp.underlying * (1 + inp.hypoChange / 100)

/-- option_multiplier = 100, the standard contract size (line 96). -/
def optionMultiplier : ℚ := 100

/-- total_contracts = contract_size * option_multiplier (line 97). -/
def totalContracts (inp : CoreInputs) : ℚ :=
  inp.contractSize * optionMultiplier

/-- theta = -abs(theta) (line 100): the normalized theta, bound by the
callback and not read afterwards in this revision. -/
def thetaInternal (theta : ℚ) : ℚ := -|theta|

/-- np.linspace(0, 3, count) (line 103), taking the raw, possibly negative
day count: numpy raises ValueError for a negative sample count, modelled as
none; otherwise the points are evenly spaced from 0 to 3, endpoints
included, so 3 * i / (count - 1) when there are at least two points and 0
for zero or one point. -/
noncomputable def linspace03 (count : ℤ) : Option (ℕ → ℝ) :=
  if count < 0 then none
  else some (fun i : ℕ =>
    if count.toNat ≤ 1 then 0
    else 3 * (i : ℝ) / ((count.toNat : ℝ) - 1))

/-- theta_decay_factor = np.exp(-np.linspace(0, 3, days_to_expiry))
(line 103): none models the ValueError that np.linspace raises when
days_to_expiry is negative; the value is bound by the callback and never
read afterwards. -/
noncomputable def thetaDecayFactor (inp : CoreInputs) : Option (ℕ → ℝ) :=
  (linspace03 (daysToExpiry inp)).map (fun lin => fun i : ℕ => Real.exp (-(lin i)))

/-- extrinsic_value[i] = premium * exp(-0.1 * i) (line 104). -/
noncomputable def extrinsicValue (inp : CoreInputs) (i : ℕ) : ℝ :=
  (inp.premium : ℝ) * Real.exp (-(1 / 10) * (i : ℝ))

/-- intrinsic_value = max(adjusted_price - underlying, 0) for a call and
max(underlying - adjusted_price, 0) for a put (line 105); a single scalar
since the adjusted price is constant across the series. -/
def intrinsicValue (inp : CoreInputs) : ℚ :=
  match inp.optionKind with
  | .call => max (adjustedPrice inp - inp.underlying) 0
  | .put => max (inp.underlying - adjustedPrice inp) 0

/-- option_value[i] = np.maximum(intrinsic_value, extrinsic_value[i])
(line 106). -/
noncomputable def optionValue (inp : CoreInputs) (i : ℕ) : ℝ :=
  max ((intrinsicValue inp : ℝ)) (extrinsicValue inp i)

/-- estimated_pnl[i] = option_value[i] * total_contracts
- premium * total_contracts (line 108). -/
noncomputable def estimatedPnl (inp : CoreInputs) (i : ℕ) : ℝ :=
  optionValue inp i * (totalContracts inp : ℝ)
    - (inp.premium : ℝ) * (totalContracts inp : ℝ)

/-- One entry of the percent series under IEEE float semantics: a finite
real, a signed infinity, or NaN. -/
inductive FloatVal where
  | finite (x : ℝ)
  | posInf
  | negInf
  | nan

/-- pnl_percentage[i] = estimated_pnl[i] / (premium * total_contracts) * 100
(line 109) with the IEEE semantics of the numpy division: a nonzero value
divided by zero is a signed infinity, zero divided by zero is NaN, and
multiplying either by 100 preserves it. -/
noncomputable def pnlPercentage (inp : CoreInputs) (i : ℕ) : FloatVal :=
  if ((inp.premium : ℝ) * (totalContracts inp : ℝ)) = 0 then
    if estimatedPnl inp i = 0 then .nan
    else if 0 < estimatedPnl inp i then .posInf else .negInf
  else
    .finite (estimatedPnl inp i
      / ((inp.premium : ℝ) * (totalContracts inp : ℝ)) * 100)

/-- The option-value series over the swept days. -/
noncomputable def optionValueSeries (inp : CoreInputs) : List ℝ :=
  (List.range (numDays inp)).map (optionValue inp)

/-- The dollar P&L series over the swept days. -/
noncomputable def estimatedPnlSeries (inp : CoreInputs) : List ℝ :=
  (List.range (numDays inp)).map (estimatedPnl inp)

/-- The percent P&L series over the swept days. -/
noncomputable def pnlPercentageSeries (inp : CoreInputs) : List FloatVal :=
  (List.range (numDays inp)).map (pnlPercentage inp)

/-- The P&L data handed to the chart (lines 111-113): the market days and
the three parallel series. -/
structure Outputs where
  market_days : List ℤ
  option_value : List ℝ
  estimated_pnl : List ℝ
  pnl_percentage : List FloatVal

/-- The outcome of the decay-model block: either the computed outputs, or
the uncaught ValueError that np.linspace raises at line 103 when
days_to_expiry is negative, aborting the callback. -/
inductive CoreOutcome where
  | raised
  | ok (o : Outputs)

/-- The decay-model engine exactly as lines 95-109 run, dead local bindings
included: the normalized theta (line 100) is bound and never read, and the
theta decay curve (line 103) is evaluated — raising for a negative day
count — bound and never read. -/
noncomputable def updateGraphCore (inp : CoreInputs) : CoreOutcome :=
  let _theta := thetaInternal inp.theta
  match thetaDecayFactor inp with
  | none => .raised
  | some _theta_decay_factor =>
      .ok { market_days := marketDays inp
            option_value := optionValueSeries inp
            estimated_pnl := estimatedPnlSeries inp
            pnl_percentage := pnlPercentageSeries inp }

/-- The same engine with the theta decay curve computation of line 103
removed: nothing can raise any more, so it is total and always returns
outputs. -/
noncomputable def updateGraphCoreNoCurve (inp : CoreInputs) : Outputs :=
  let _theta := thetaInternal inp.theta
  { market_days := marketDays inp
    option_value := optionValueSeries inp
    estimated_pnl := estimatedPnlSeries inp
    pnl_percentage := pnlPercentageSeries inp }

/-- The raw callback inputs (line 86): the dates may be missing.  The
ticker is omitted: it only feeds the candlestick chart, which never touches
the P&L computation. -/
structure RawInputs where
  underlying : ℚ
  premium : ℚ
  contractSize : ℚ
  optionKind : OptionKind
  delta : ℚ
  theta : ℚ
  datePurchased : Option ℤ
  expiryDate : Option ℤ
  hypoChange : ℚ

/-- The callback result as far as the P&L series are concerned: the empty
figures returned when a date is missing (line 88), an uncaught ValueError
unwinding out of the callback from line 103, or the computed series. -/
inductive UpdateResult where
  | emptyFigures
  | raised
  | computed (o : Outputs)

/-- The core inputs the callback works on once both dates are present. -/
def toCore (inp : RawInputs) (p e : ℤ) : CoreInputs :=
  { underlying := inp.underlying, premium := inp.premium,
    contractSize := inp.contractSize, optionKind := inp.optionKind,
    delta := inp.delta, theta := inp.theta,
    datePurchased := p, expiryDate := e, hypoChange := inp.hypoChange }

/-- update_graph (lines 86-113): return empty figures when either date is
missing (lines 87-88), otherwise run the decay model, which either raises
at line 103 or produces the series.  No other input validation is
performed. -/
noncomputable def update_graph (inp : RawInputs) : UpdateResult :=
  match inp.datePurchased, inp.expiryDate with
  | some p, some e =>
      match updateGraphCore (toCore inp p e) with
      | .raised => .raised
      | .ok o => .computed o
  | _, _ => .emptyFigures

/-- A representative valid input: the default form values with a 10 percent
upward shock and a 30-day holding period. -/
def exInputs : CoreInputs :=
  { underlying := 100, premium := 5, contractSize := 1,
    optionKind := .call, delta := 1 / 2, theta := 1 / 50,
    datePurchased := 0, expiryDate := 30, hypoChange := 10 }

/-- The same position with a zero premium. -/
def exZeroPremium : CoreInputs :=
  { underlying := 100, premium := 0, contractSize := 1,
    optionKind := .call, delta := 1 / 2, theta := 1 / 50,
    datePurchased := 0, expiryDate := 30, hypoChange := 10 }

/-- A malformed input: a negative contract size with otherwise valid
fields and both dates present. -/
def exNegContract : RawInputs :=
  { underlying := 100, premium := 5, contractSize := -1,
    optionKind := .call, delta := 1 / 2, theta := 1 / 50,
    datePurchased := some 0, expiryDate := some 30, hypoChange := 10 }

/-- A malformed input: the expiry date precedes the purchase date, with
both dates present. -/
def exBadDates : RawInputs :=
  { underlying := 100, premium := 5, contractSize := 1,
    optionKind := .call, delta := 1 / 2, theta := 1 / 50,
    datePurchased := some 30, expiryDate := some 10, hypoChange := 10 }

/-- The core inputs of a position whose expiry precedes its purchase. -/
def exBadDatesCore : CoreInputs :=
  { underlying := 100, premium := 5, contractSize := 1,
    optionKind := .call, delta := 1 / 2, theta := 1 / 50,
    datePurchased := 30, expiryDate := 10, hypoChange := 10 }

/-- C1 counterexample: with a zero premium on an in-the-money call the
engine does not return a designated not-applicable marker for the percent
series — it performs the division of line 109 anyway and the entry is
positive infinity, silently propagated. -/
theorem pnlPercentage_zero_premium_counterexample :
    exZeroPremium.premium = 0 ∧
      pnlPercentage exZeroPremium 0 = .posInf := by
  refine ⟨rfl, ?_⟩
  have hden : ((exZeroPremium.premium : ℝ)
      * (totalContracts exZeroPremium : ℝ)) = 0 := by
    norm_num [exZeroPremium]
  have hintr : ((intrinsicValue exZeroPremium : ℝ)) = 10 := by
    have : intrinsicValue exZeroPremium = 10 := by
      show max (adjustedPrice exZeroPremium - (100 : ℚ)) 0 = 10
      norm_num [adjustedPrice, exZeroPremium]
    rw [this]; norm_num
  have hext : extrinsicValue exZeroPremium 0 = 0 := by
    simp [extrinsicValue, exZeroPremium]
  have hopt : optionValue exZeroPremium 0 = 10 := by
    rw [optionValue, hintr, hext]; norm_num
  have hpnl : estimatedPnl exZeroPremium 0 = 1000 := by
    rw [estimatedPnl, hopt]
    norm_num [totalContracts, optionMultiplier, exZeroPremium]
  rw [pnlPercentage, if_pos hden, hpnl]
  norm_num

/-- C1 (amended): when the premium is zero the engine performs the division
anyway; every percent entry is NaN or a signed infinity, silently
propagated into the plotted series — there is no not-applicable marker. -/
theorem pnlPercentage_zero_premium_propagates (inp : CoreInputs)
    (h : inp.premium = 0) (i : ℕ) :
    pnlPercentage inp i = .nan ∨ pnlPercentage inp i = .posInf ∨
      pnlPercentage inp i = .negInf := by
  have hden : ((inp.premium : ℝ) * (totalContracts inp : ℝ)) = 0 := by
    rw [h]; simp
  rw [pnlPercentage, if_pos hden]
  by_cases h0 : estimatedPnl inp i = 0
  · left; rw [if_pos h0]
  · by_cases h1 : 0 < estimatedPnl inp i
    · right; left; rw [if_neg h0, if_pos h1]
    · right; right; rw [if_neg h0, if_neg h1]

/-- Witness for the amended C1 at the zero-premium input and day index 0. -/
theorem pnlPercentage_zero_premium_propagates_witness :
    exZeroPremium.premium = 0 ∧
      (pnlPercentage exZeroPremium 0 = .nan ∨
        pnlPercentage exZeroPremium 0 = .posInf ∨
        pnlPercentage exZeroPremium 0 = .negInf) :=
  ⟨rfl, pnlPercentage_zero_premium_propagates exZeroPremium rfl 0⟩

/-- C2: for every valid input (nonnegative premium, expiry after purchase)
and every in-range day index, the option value equals the maximum of the
intrinsic and extrinsic values, hence is at least the intrinsic value (the
option-value floor property). -/
theorem optionValue_floor (inp : CoreInputs) (hprem : 0 ≤ inp.premium)
    (hdate : inp.datePurchased < inp.expiryDate)
    (i : ℕ) (hi : i < numDays inp) :
    optionValue inp i
        = max ((intrinsicValue inp : ℝ)) (extrinsicValue inp i) ∧
      ((intrinsicValue inp : ℝ)) ≤ optionValue inp i :=
  ⟨rfl, le_max_left _ _⟩

/-- Witness for C2 at the representative input and day index 0. -/
theorem optionValue_floor_witness :
    0 ≤ exInputs.premium ∧ exInputs.datePurchased < exInputs.expiryDate ∧
      0 < numDays exInputs ∧
      (optionValue exInputs 0
          = max ((intrinsicValue exInputs : ℝ)) (extrinsicValue exInputs 0) ∧
        ((intrinsicValue exInputs : ℝ)) ≤ optionValue exInputs 0) :=
  ⟨by decide, by decide, by decide,
    optionValue_floor exInputs (by decide) (by decide) 0 (by decide)⟩

/-- C3: the engine ignores delta and theta entirely in this revision — two
inputs that differ only in those fields produce identical outputs. -/
theorem outputs_ignore_delta_theta (inp : CoreInputs) (d₁ t₁ d₂ t₂ : ℚ) :
    updateGraphCore { inp with delta := d₁, theta := t₁ }
      = updateGraphCore { inp with delta := d₂, theta := t₂ } := rfl

/-- C4 counterexample: with a negative contract size and valid dates the
callback computes a full 30-point (sign-flipped) series instead of
rejecting the evaluation; with the expiry before the purchase it does not
report a rejected result value either — the np.linspace call of line 103
raises an uncaught ValueError that unwinds out of the callback. -/
theorem no_validation_counterexample :
    (update_graph exNegContract
        = .computed (updateGraphCoreNoCurve (toCore exNegContract 0 30)) ∧
      (updateGraphCoreNoCurve
          (toCore exNegContract 0 30)).market_days.length = 30) ∧
      update_graph exBadDates = .raised := by
  refine ⟨⟨rfl, ?_⟩, rfl⟩
  simp [updateGraphCoreNoCurve, marketDays, numDays, daysToExpiry, toCore,
    exNegContract]

/-- C4 (amended): the callback validates only the presence of the two
dates, returning the empty figures when either is missing; whenever both
dates are supplied it never reports a rejected result: with the expiry on
or after the purchase it returns a computed series whatever the other
fields hold (a negative contract size included), and with the expiry
strictly before the purchase it raises an uncaught ValueError from
np.linspace at line 103 — a crash, not a descriptive error value. -/
theorem update_graph_validation_behavior (inp : RawInputs) (p e : ℤ)
    (hp : inp.datePurchased = some p) (he : inp.expiryDate = some e) :
    (e < p → update_graph inp = .raised) ∧
      (p ≤ e → update_graph inp
        = .computed (updateGraphCoreNoCurve (toCore inp p e))) := by
  constructor
  · intro hlt
    have hneg : daysToExpiry (toCore inp p e) < 0 := by
      simp only [daysToExpiry, toCore]
      omega
    simp [update_graph, hp, he, updateGraphCore, thetaDecayFactor,
      linspace03, hneg]
  · intro hle
    have hnn : ¬ daysToExpiry (toCore inp p e) < 0 := by
      simp only [daysToExpiry, toCore]
      omega
    simp [update_graph, hp, he, updateGraphCore, updateGraphCoreNoCurve,
      thetaDecayFactor, linspace03, hnn]

/-- Witness for the amended C4 at the negative-contract-size input, whose
dates are valid: the callback computes rather than rejects. -/
theorem update_graph_validation_behavior_witness :
    exNegContract.datePurchased = some 0 ∧
      exNegContract.expiryDate = some 30 ∧ (0 : ℤ) ≤ 30 ∧
      update_graph exNegContract
        = .computed (updateGraphCoreNoCurve (toCore exNegContract 0 30)) :=
  ⟨rfl, rfl, by decide,
    (update_graph_validation_behavior exNegContract 0 30 rfl rfl).2
      (by decide)⟩

/-- C5: for every valid input with positive premium and contract size and
every day index, total_contracts is contract_size * 100, the dollar P&L is
option_value * total_contracts - premium * total_contracts, and the percent
P&L is the finite value pnl_dollars / (premium * total_contracts) * 100,
the same total_contracts in all three places. -/
theorem pnlSeries_formulas (inp : CoreInputs) (hprem : 0 < inp.premium)
    (hcs : 0 < inp.contractSize) (i : ℕ) :
    totalContracts inp = inp.contractSize * 100 ∧
      estimatedPnl inp i
        = optionValue inp i * (totalContracts inp : ℝ)
            - (inp.premium : ℝ) * (totalContracts inp : ℝ) ∧
      pnlPercentage inp i
        = .finite (estimatedPnl inp i
            / ((inp.premium : ℝ) * (totalContracts inp : ℝ)) * 100) := by
  have hden : ((inp.premium : ℝ) * (totalContracts inp : ℝ)) ≠ 0 := by
    have h1 : (0 : ℝ) < (inp.premium : ℝ) := by exact_mod_cast hprem
    have h2 : (0 : ℝ) < (totalContracts inp : ℝ) := by
      have : (0 : ℚ) < totalContracts inp :=
        mul_pos hcs (by norm_num [optionMultiplier])
      exact_mod_cast this
    exact ne_of_gt (mul_pos h1 h2)
  exact ⟨rfl, rfl, by simp [pnlPercentage, hden]⟩

/-- Witness for C5 at the representative input and day index 0. -/
theorem pnlSeries_formulas_witness :
    0 < exInputs.premium ∧ 0 < exInputs.contractSize ∧
      (totalContracts exInputs = exInputs.contractSize * 100 ∧
        estimatedPnl exInputs 0
          = optionValue exInputs 0 * (totalContracts exInputs : ℝ)
              - (exInputs.premium : ℝ) * (totalContracts exInputs : ℝ) ∧
        pnlPercentage exInputs 0
          = .finite (estimatedPnl exInputs 0
              / ((exInputs.premium : ℝ) * (totalContracts exInputs : ℝ))
              * 100)) :=
  ⟨by decide, by decide, pnlSeries_formulas exInputs (by decide) (by decide) 0⟩

/-- C6: for every valid input all four output sequences have length
days_to_expiry = expiry - purchased (expiry day excluded), and the market
days are strictly increasing consecutive calendar days starting at the
purchase date and all before the expiry date. -/
theorem series_lengths_and_dates (inp : CoreInputs)
    (hdate : inp.datePurchased < inp.expiryDate) :
    (marketDays inp).length = numDays inp ∧
      (optionValueSeries inp).length = numDays inp ∧
      (estimatedPnlSeries inp).length = numDays inp ∧
      (pnlPercentageSeries inp).length = numDays inp ∧
      (numDays inp : ℤ) = inp.expiryDate - inp.datePurchased ∧
      (marketDays inp).Pairwise (· < ·) ∧
      (∀ i, i < numDays inp →
        (marketDays inp)[i]? = some (inp.datePurchased + (i : ℤ))) ∧
      (∀ d ∈ marketDays inp, d < inp.expiryDate) := by
  refine ⟨by simp [marketDays], by simp [optionValueSeries],
    by simp [estimatedPnlSeries], by simp [pnlPercentageSeries],
    ?_, ?_, ?_, ?_⟩
  · simp only [numDays, daysToExpiry]
    omega
  · refine List.Pairwise.map _ ?_ (List.pairwise_lt_range (numDays inp))
    intro a b hab
    omega
  · intro i hi
    simp [marketDays, List.getElem?_map, List.getElem?_range hi]
  · intro d hd
    obtain ⟨i, hi, rfl⟩ := List.mem_map.mp hd
    rw [List.mem_range] at hi
    have : (i : ℤ) < (numDays inp : ℤ) := by exact_mod_cast hi
    simp only [numDays, daysToExpiry] at this
    omega

/-- Witness for C6 at the representative input (a 30-day span). -/
theorem series_lengths_and_dates_witness :
    exInputs.datePurchased < exInputs.expiryDate ∧
      ((marketDays exInputs).length = numDays exInputs ∧
        (optionValueSeries exInputs).length = numDays exInputs ∧
        (estimatedPnlSeries exInputs).length = numDays exInputs ∧
        (pnlPercentageSeries exInputs).length = numDays exInputs ∧
        (numDays exInputs : ℤ) = exInputs.expiryDate - exInputs.datePurchased ∧
        (marketDays exInputs).Pairwise (· < ·) ∧
        (∀ i, i < numDays exInputs →
          (marketDays exInputs)[i]?
            = some (exInputs.datePurchased + (i : ℤ))) ∧
        (∀ d ∈ marketDays exInputs, d < exInputs.expiryDate)) :=
  ⟨by decide, series_lengths_and_dates exInputs (by decide)⟩

/-- C7 counterexample: with a zero premium — an allowed input, premium is
only required to be nonnegative — the extrinsic series is identically zero:
it is not strictly decreasing (days 0 and 1 coincide) and it does reach 0. -/
theorem extrinsic_constant_at_zero_premium :
    exZeroPremium.premium = 0 ∧
      extrinsicValue exZeroPremium 0 = extrinsicValue exZeroPremium 1 ∧
      extrinsicValue exZeroPremium 0 = 0 := by
  refine ⟨rfl, ?_, ?_⟩ <;> simp [extrinsicValue, exZeroPremium]

/-- C7 (amended): for positive premium, extrinsic[i] = premium *
exp(-0.1 * i) is strictly decreasing, everywhere positive (never reaching
0), tends to 0, equals the premium exactly at day 0, and option_value[0] =
max(intrinsic, premium). -/
theorem extrinsicValue_decay (inp : CoreInputs) (hprem : 0 < inp.premium) :
    (∀ i : ℕ, extrinsicValue inp i
        = (inp.premium : ℝ) * Real.exp (-(1 / 10) * (i : ℝ))) ∧
      StrictAnti (extrinsicValue inp) ∧
      (∀ i : ℕ, 0 < extrinsicValue inp i) ∧
      Filter.Tendsto (extrinsicValue inp) Filter.atTop (nhds 0) ∧
      extrinsicValue inp 0 = (inp.premium : ℝ) ∧
      optionValue inp 0 = max ((intrinsicValue inp : ℝ)) ((inp.premium : ℝ)) := by
  have hp : (0 : ℝ) < (inp.premium : ℝ) := by exact_mod_cast hprem
  have h0 : extrinsicValue inp 0 = (inp.premium : ℝ) := by
    simp [extrinsicValue]
  refine ⟨fun i => rfl, ?_, ?_, ?_, h0, ?_⟩
  · intro i j hij
    have hcast : (i : ℝ) < (j : ℝ) := by exact_mod_cast hij
    exact mul_lt_mul_of_pos_left
      (Real.exp_lt_exp.mpr (by nlinarith)) hp
  · intro i
    exact mul_pos hp (Real.exp_pos _)
  · have hform : ∀ i : ℕ, extrinsicValue inp i
        = (inp.premium : ℝ) * Real.exp (-(1 / 10)) ^ i := by
      intro i
      show (inp.premium : ℝ) * Real.exp (-(1 / 10) * (i : ℝ)) = _
      rw [mul_comm (-(1 / 10) : ℝ) (i : ℝ), Real.exp_nat_mul]
    have hlim : Filter.Tendsto (fun i : ℕ => Real.exp (-(1 / 10)) ^ i)
        Filter.atTop (nhds 0) :=
      tendsto_pow_atTop_nhds_zero_of_lt_one (Real.exp_pos _).le
        (by rw [Real.exp_lt_one_iff]; norm_num)
    have := hlim.const_mul ((inp.premium : ℝ))
    rw [mul_zero] at this
    exact Filter.Tendsto.congr (fun i => (hform i).symm) this
  · show max _ _ = _
    rw [h0]

/-- Witness for the amended C7 at the representative input. -/
theorem extrinsicValue_decay_witness :
    0 < exInputs.premium ∧
      ((∀ i : ℕ, extrinsicValue exInputs i
          = (exInputs.premium : ℝ) * Real.exp (-(1 / 10) * (i : ℝ))) ∧
        StrictAnti (extrinsicValue exInputs) ∧
        (∀ i : ℕ, 0 < extrinsicValue exInputs i) ∧
        Filter.Tendsto (extrinsicValue exInputs) Filter.atTop (nhds 0) ∧
        extrinsicValue exInputs 0 = (exInputs.premium : ℝ) ∧
        optionValue exInputs 0
          = max ((intrinsicValue exInputs : ℝ)) ((exInputs.premium : ℝ))) :=
  ⟨by decide, extrinsicValue_decay exInputs (by decide)⟩

/-- C8: the normalized theta equals minus the absolute value of the input,
is never positive, is invariant under a sign flip of the input, and maps
both 0.02 and -0.02 to -0.02. -/
theorem thetaInternal_spec (t : ℚ) :
    thetaInternal t = -|t| ∧ thetaInternal t ≤ 0 ∧
      thetaInternal (-t) = thetaInternal t ∧
      thetaInternal 0.02 = -0.02 ∧ thetaInternal (-0.02) = -0.02 := by
  refine ⟨rfl, neg_nonpos.mpr (abs_nonneg t), ?_, ?_, ?_⟩
  · show -|(-t)| = -|t|
    rw [abs_neg]
  · show -|(0.02 : ℚ)| = -0.02
    rw [abs_of_nonneg (by norm_num)]
  · show -|(-0.02 : ℚ)| = -0.02
    rw [abs_neg, abs_of_nonneg (by norm_num)]

/-- C9: the adjusted price is underlying * (1 + pct / 100), the intrinsic
value is the single scalar max(adjusted - underlying, 0) for a call and
max(underlying - adjusted, 0) for a put; for a call it is exactly 0 when
adjusted is at most the underlying and exactly the difference when adjusted
exceeds it. -/
theorem intrinsicValue_spec (inp : CoreInputs) :
    adjustedPrice inp = inp.underlying * (1 + inp.hypoChange / 100) ∧
      (inp.optionKind = .call →
        intrinsicValue inp = max (adjustedPrice inp - inp.underlying) 0) ∧
      (inp.optionKind = .put →
        intrinsicValue inp = max (inp.underlying - adjustedPrice inp) 0) ∧
      (inp.optionKind = .call → adjustedPrice inp ≤ inp.underlying →
        intrinsicValue inp = 0) ∧
      (inp.optionKind = .call → inp.underlying < adjustedPrice inp →
        intrinsicValue inp = adjustedPrice inp - inp.underlying) := by
  refine ⟨rfl, fun h => ?_, fun h => ?_, fun h hle => ?_, fun h hlt => ?_⟩
  · simp [intrinsicValue, h]
  · simp [intrinsicValue, h]
  · simp only [intrinsicValue, h]
    exact max_eq_right (sub_nonpos.mpr hle)
  · simp only [intrinsicValue, h]
    exact max_eq_left (sub_nonneg.mpr hlt.le)

/-- Witness for C9: the representative call input is 10 points in the
money. -/
theorem intrinsicValue_spec_witness :
    exInputs.optionKind = .call ∧
      exInputs.underlying < adjustedPrice exInputs ∧
      intrinsicValue exInputs = adjustedPrice exInputs - exInputs.underlying :=
  ⟨rfl, by norm_num [adjustedPrice, exInputs],
    (intrinsicValue_spec exInputs).2.2.2.2 rfl
      (by norm_num [adjustedPrice, exInputs])⟩

/-- C10 counterexample: with the expiry before the purchase the engine with
the curve computation present raises at line 103 and produces no series at
all, while the engine with it removed runs to completion and returns the
(empty) series — so the two engines are not identical on every input. -/
theorem decay_curve_observable_counterexample :
    updateGraphCore exBadDatesCore = .raised ∧
      updateGraphCoreNoCurve exBadDatesCore
        = { market_days := [], option_value := [],
            estimated_pnl := [], pnl_percentage := [] } ∧
      updateGraphCore exBadDatesCore
        ≠ .ok (updateGraphCoreNoCurve exBadDatesCore) :=
  ⟨rfl, rfl, fun h => CoreOutcome.noConfusion h⟩

/-- C10 (amended): the decay curve is read by no output — whenever the
np.linspace call of line 103 does not raise, that is whenever
days_to_expiry is nonnegative and in particular on every valid input, the
engine with the curve computation present returns exactly the outputs of
the engine with it removed; only the error path of a negative day count
distinguishes them. -/
theorem decay_curve_unused_when_defined (inp : CoreInputs)
    (h : 0 ≤ daysToExpiry inp) :
    updateGraphCore inp = .ok (updateGraphCoreNoCurve inp) := by
  have hnn : ¬ daysToExpiry inp < 0 := not_lt.mpr h
  simp [updateGraphCore, updateGraphCoreNoCurve, thetaDecayFactor,
    linspace03, hnn]

/-- Witness for the amended C10 at the representative input. -/
theorem decay_curve_unused_when_defined_witness :
    0 ≤ daysToExpiry exInputs ∧
      updateGraphCore exInputs = .ok (updateGraphCoreNoCurve exInputs) :=
  ⟨by decide, decay_curve_unused_when_defined exInputs (by decide)⟩
